import Mathlib

/-!
Shallow embedding of the data-shaping pipeline of `src/app.py`
(an Excel-backed economic dashboard).

The pipeline stages embedded here, in source order:
  * `_ensure_year_column`  (app.py lines 21-47)   → `ensureYearColumn`
  * `ensure_required_columns` (lines 61-65)       → `ensureRequiredColumns`
  * `coerce_numeric` (lines 67-70)                → `coerceNumeric`
  * categorical candidate scan (lines 106-110)    → `extraGroupCol`
  * year re-coercion / dropna / astype (113-115)  → inside `prepare`
  * empty-range check and min/max (117-122)       → `prepareWithBounds`
  * the year-range row filter (line 138)          → `rangeFilter`

Cell values are modelled by `Value`: pandas numeric cells are carried as
integers (all year data in the program is integral), strings as `String`,
and NaN/NaT/None as `Value.null`.  Library calls (`pd.to_numeric`,
`pd.to_datetime`, `.dt.year`) are modelled cell-wise below, with
`pd.to_datetime` on a numeric cell interpreting the number as nanoseconds
since the Unix epoch (pandas' default unit for numeric input) and on a
string cell parsing an ISO date.
-/

/-- A cell of the table: a numeric value (integral in this development),
a raw string, or a missing marker (NaN/NaT/None). -/
inductive Value where
  | num (n : Int)
  | str (s : String)
  | null
deriving DecidableEq

/-- Python `str.lower` restricted to the alphabets appearing in the
program: ASCII letters and the Russian-alphabet letters used by the
column-name candidates (А..Я → а..я, Ё → ё). -/
def lowerChar (c : Char) : Char :=
  if c.toNat ≥ 65 ∧ c.toNat ≤ 90 then Char.ofNat (c.toNat + 32)
  else if c.toNat ≥ 0x410 ∧ c.toNat ≤ 0x42F then Char.ofNat (c.toNat + 32)
  else if c.toNat = 0x401 then Char.ofNat 0x451
  else c

/-- Python `str.lower` on a whole string (see `lowerChar`). -/
def lowerStr (s : String) : String := ⟨s.data.map lowerChar⟩

/-- `needle` occurs as a contiguous sublist of `hay`
(Python `needle in hay` on strings, on the character lists). -/
def containsSub (hay needle : List Char) : Bool :=
  match hay with
  | [] => needle.isEmpty
  | _ :: t => needle.isPrefixOf hay || containsSub t needle

/-- Python substring test `needle in hay`. -/
def strContains (hay needle : String) : Bool :=
  containsSub hay.data needle.data

/-- Value of a digit string, most significant digit first. -/
def digitsToNat (ds : List Char) : Nat :=
  ds.foldl (fun a c => a * 10 + (c.toNat - 48)) 0

/-- Parse an optionally-signed run of decimal digits as an integer. -/
def parseIntDigits (cs : List Char) : Option Int :=
  match cs with
  | [] => none
  | c :: rest =>
    if c = '-' then
      if !rest.isEmpty ∧ rest.all Char.isDigit
      then some (-(digitsToNat rest : Int)) else none
    else
      if cs.all Char.isDigit then some (digitsToNat cs : Int) else none

/-- Parse a string as an integer literal (the integral fragment of
Python numeric-literal parsing; all numeric data in the program is
integral). -/
def strToInt (s : String) : Option Int := parseIntDigits s.data

/-- Cell-wise `pd.to_numeric(·, errors="coerce")`: numbers pass through,
numeric strings parse (integral literals in this development),
anything else becomes the missing marker. -/
def parseNum (v : Value) : Value :=
  match v with
  | .num n => .num n
  | .str s => match strToInt s with
              | some n => .num n
              | none => .null
  | .null => .null

/-- Nanoseconds in a day (pandas timestamps count nanoseconds since
1970-01-01). -/
def nsPerDay : Int := 86400000000000

/-- Calendar year of the civil day `z` days after 1970-01-01
(proleptic Gregorian; the standard days-to-civil conversion). -/
def civilYearFromDays (z : Int) : Int :=
  let z2 : Int := z + 719468
  let era : Int := Int.fdiv z2 146097
  let doe : Int := z2 - era * 146097
  let yoe : Int := (doe - doe / 1460 + doe / 36524 - doe / 146096) / 365
  let y : Int := yoe + era * 400
  let doy : Int := doe - (365 * yoe + yoe / 4 - yoe / 100)
  let mp : Int := (5 * doy + 2) / 153
  let m : Int := mp + (if mp < 10 then 3 else (-9))
  if m ≤ 2 then y + 1 else y

/-- `.dt.year` of the timestamp that a raw numeric cell denotes under
`pd.to_datetime`: the number is taken as nanoseconds since the epoch
(pandas' default unit for numeric input). -/
def epochNsToYear (ns : Int) : Int :=
  civilYearFromDays (Int.fdiv ns nsPerDay)

/-- Split a character list on a separator character (the list analogue
of Python `s.split(sep)`). -/
def splitOnChar (sep : Char) : List Char → List (List Char)
  | [] => [[]]
  | c :: t =>
    let r := splitOnChar sep t
    if c = sep then [] :: r
    else match r with
         | h :: t2 => (c :: h) :: t2
         | [] => [[c]]

/-- A run of characters that is a plausible date field: non-empty and
all decimal digits. -/
def digitField (cs : List Char) : Bool := !cs.isEmpty && cs.all Char.isDigit

/-- Year of an ISO date string, modelling the string side of
`pd.to_datetime(·, errors="coerce")` for the formats `YYYY` and
`YYYY-MM-DD`; other strings coerce to the missing marker. -/
def isoDateYear (s : String) : Option Int :=
  match splitOnChar '-' s.data with
  | [y] =>
      if y.length = 4 ∧ y.all Char.isDigit then some (digitsToNat y : Int)
      else none
  | [y, mo, d] =>
      if (y.length = 4 ∧ y.all Char.isDigit ∧ digitField mo ∧ digitField d) ∧
         ((1 ≤ digitsToNat mo ∧ digitsToNat mo ≤ 12) ∧
          (1 ≤ digitsToNat d ∧ digitsToNat d ≤ 31))
      then some (digitsToNat y : Int) else none
  | _ => none

/-- Cell-wise `pd.to_datetime(·, errors="coerce").dt.year`: a numeric
cell is nanoseconds since the epoch, a string cell is parsed as an ISO
date, anything unparseable becomes the missing marker. -/
def parseDateYear (v : Value) : Value :=
  match v with
  | .num n => .num (epochNsToYear n)
  | .str s => match isoDateYear s with
              | some y => .num y
              | none => .null
  | .null => .null

/-- Cell-wise `.astype(int)` on the year column.  In this model numeric
cells already carry integers, and the preceding drop step has removed
every missing cell, so the cast is the identity. -/
def astypeIntVal (v : Value) : Value := v

/-- The pandas `DataFrame` as used by the program: an ordered header of
column names and a list of rows, each row a list of cells positionally
aligned with the header. -/
structure DataFrame where
  header : List String
  rows : List (List Value)
deriving DecidableEq

namespace DataFrame

/-- Index of the first column named `c` (pandas label lookup). -/
def colIdx (df : DataFrame) (c : String) : Option Nat :=
  df.header.findIdx? (fun h => h == c)

/-- `c in df.columns`. -/
def hasCol (df : DataFrame) (c : String) : Bool :=
  df.header.contains c

/-- `df[c]` as a list of cells (empty when the label is absent). -/
def getCol (df : DataFrame) (c : String) : List Value :=
  match df.colIdx c with
  | some i => df.rows.map (fun r => r.getD i .null)
  | none => []

/-- `df[c] = vs`: overwrite the column when the label exists, otherwise
append it on the right (pandas column assignment). -/
def setCol (df : DataFrame) (c : String) (vs : List Value) : DataFrame :=
  match df.colIdx c with
  | some i => ⟨df.header, (df.rows.zip vs).map (fun p => p.1.set i p.2)⟩
  | none => ⟨df.header ++ [c], (df.rows.zip vs).map (fun p => p.1 ++ [p.2])⟩

end DataFrame

/-- The fatal conditions surfaced by the script (each is shown with
`st.error` and followed by a halt of the run). -/
inductive AppError where
  | missingYear
  | missingRequired (missing : List String)
  | emptyYears
deriving DecidableEq

/-- `REQUIRED_COLS` (app.py line 19). -/
def REQUIRED_COLS : List String := ["real_GVA", "real_support", "real_subsidies"]

/-- `cols_lower[key]`: the dict `{c.lower(): c for c in df.columns}` is
built left to right, so a duplicate lowercased name is won by the last
column; membership holds iff any column lowercases to `key`. -/
def lastKeyMatch (df : DataFrame) (key : String) : Option String :=
  (df.header.filter (fun c => lowerStr c == key)).getLast?

/-- The fallback loop of `_ensure_year_column` (app.py lines 41-45):
the first column whose lowercased name contains "year" or "год". -/
def firstSubstrMatch (df : DataFrame) : Option String :=
  df.header.find?
    (fun c => strContains (lowerStr c) "year" || strContains (lowerStr c) "год")

/-- `_ensure_year_column` (app.py lines 21-47): derive the canonical
`year` column from, in priority order, an exact (case-insensitive)
`year` column, an exact `год` column, an exact `date` column (year
extracted from the parsed date), or any column whose lowercased name
contains `year`/`год`; numeric candidates are numeric-parsed.  With no
candidate the script raises `ValueError` (here `AppError.missingYear`). -/
def ensureYearColumn (df : DataFrame) : Except AppError DataFrame :=
  match lastKeyMatch df "year" with
  | some c => .ok (df.setCol "year" ((df.getCol c).map parseNum))
  | none =>
    match lastKeyMatch df "год" with
    | some c => .ok (df.setCol "year" ((df.getCol c).map parseNum))
    | none =>
      match lastKeyMatch df "date" with
      | some c => .ok (df.setCol "year" ((df.getCol c).map parseDateYear))
      | none =>
        match firstSubstrMatch df with
        | some c => .ok (df.setCol "year" ((df.getCol c).map parseNum))
        | none => .error .missingYear

/-- `ensure_required_columns` (app.py lines 61-65): collect the required
names absent from the header (exact, case-sensitive comparison, in
declared order); a non-empty list is fatal, otherwise pass silently. -/
def ensureRequiredColumns (df : DataFrame) : Except AppError Unit :=
  let missing := REQUIRED_COLS.filter (fun c => !(df.hasCol c))
  if missing.isEmpty then .ok () else .error (.missingRequired missing)

/-- `coerce_numeric` (app.py lines 67-70): `df[c] = pd.to_numeric(df[c],
errors="coerce")` for each listed column. -/
def coerceNumeric (df : DataFrame) (cols : List String) : DataFrame :=
  cols.foldl (fun d c => d.setCol c ((d.getCol c).map parseNum)) df

/-- The categorical candidates in the order the script scans them
(app.py line 107). -/
def extraGroupCandidates : List String :=
  ["industry", "region", "sector", "отрасль", "регион"]

/-- The loop of app.py lines 106-110: the first candidate (exact,
case-sensitive) present in the header, if any. -/
def extraGroupCol (df : DataFrame) : Option String :=
  extraGroupCandidates.find? (fun c => df.hasCol c)

/-- `df.dropna(subset=["year"])` (app.py line 114): keep the rows whose
year cell is not the missing marker. -/
def dropnaYear (df : DataFrame) : DataFrame :=
  match df.colIdx "year" with
  | some i => ⟨df.header, df.rows.filter (fun r => !(r.getD i .null == .null))⟩
  | none => df

/-- The data-shaping prefix of the script run (app.py lines 96-115):
year resolution, required-column validation, numeric coercion of the
required columns and `year`, then the sidebar-section re-coercion of
`year` through `pd.to_datetime(...).dt.year`, the drop of rows with a
missing year, and the `astype(int)` cast. -/
def prepare (df : DataFrame) : Except AppError DataFrame :=
  match ensureYearColumn df with
  | .error e => .error e
  | .ok df1 =>
    match ensureRequiredColumns df1 with
    | .error e => .error e
    | .ok _ =>
      let df2 := coerceNumeric df1 (REQUIRED_COLS ++ ["year"])
      let df3 := df2.setCol "year" ((df2.getCol "year").map parseDateYear)
      let df4 := dropnaYear df3
      .ok (df4.setCol "year" ((df4.getCol "year").map astypeIntVal))

/-- The integers held by the year column (after `prepare` every year
cell is numeric, so this is the whole column). -/
def yearInts (df : DataFrame) : List Int :=
  (df.getCol "year").filterMap
    (fun v => match v with | .num n => some n | _ => none)

/-- App.py lines 117-122: fail when `years_series` is empty, otherwise
return the prepared table together with its observed minimum and maximum
year (the slider bounds and its default value). -/
def prepareWithBounds (df : DataFrame) : Except AppError (DataFrame × Int × Int) :=
  match prepare df with
  | .error e => .error e
  | .ok d =>
    match (yearInts d).min?, (yearInts d).max? with
    | some a, some b => .ok (d, a, b)
    | _, _ => .error .emptyYears

/-- Truth value of `cell >= lo and cell <= hi` under pandas comparison
semantics: a missing cell compares false. -/
def cellInRange (v : Value) (lo hi : Int) : Bool :=
  match v with
  | .num n => decide (lo ≤ n ∧ n ≤ hi)
  | _ => false

/-- App.py line 138: `dff = df[(df["year"] >= lo) & (df["year"] <= hi)]`
— keep the rows whose year cell lies in the inclusive range. -/
def rangeFilter (df : DataFrame) (lo hi : Int) : DataFrame :=
  match df.colIdx "year" with
  | some i => ⟨df.header, df.rows.filter (fun r => cellInRange (r.getD i .null) lo hi)⟩
  | none => df

/-- Modelled from the spec: the categorical membership filter of the
Filter Pipeline (spec §4.4).  It is implemented by the repository's
later dashboard variant scripts, which are not included under `src/`
(`src/app.py` only uses the categorical column for point coloring).
When a categorical column was detected and a selection set is provided,
keep the rows whose categorical cell is a member of the selection; an
absent column or absent selection filters nothing. -/
def categoricalFilter (df : DataFrame) (catCol : Option String)
    (sel : Option (List Value)) : DataFrame :=
  match catCol, sel with
  | some c, some allowed =>
    match df.colIdx c with
    | some i => ⟨df.header, df.rows.filter (fun r => allowed.contains (r.getD i .null))⟩
    | none => df
  | _, _ => df

/-- Modelled from the spec: the player-year view of the Filter Pipeline
(spec §4.4), implemented by the repository's later dashboard variant
scripts not included under `src/`: from the range- and
categorical-filtered view, keep the rows whose year equals the selected
player year; no selection means no extra view narrowing. -/
def playerFilter (df : DataFrame) (py : Option Int) : DataFrame :=
  match py with
  | none => df
  | some y =>
    match df.colIdx "year" with
    | some i => ⟨df.header, df.rows.filter (fun r => r.getD i .null == .num y)⟩
    | none => df

/-- The filter parameters of spec §4.4. -/
structure FilterParams where
  yearMin : Int
  yearMax : Int
  selected : Option (List Value)
  playerYear : Option Int
deriving DecidableEq

/-- The Filter Pipeline of spec §4.4: the main view (range filter from
app.py line 138, then the spec-modelled categorical filter) and the
spec-modelled player-year view derived from it. -/
def filterViews (df : DataFrame) (catCol : Option String) (p : FilterParams) :
    DataFrame × DataFrame :=
  (categoricalFilter (rangeFilter df p.yearMin p.yearMax) catCol p.selected,
   playerFilter
     (categoricalFilter (rangeFilter df p.yearMin p.yearMax) catCol p.selected)
     p.playerYear)

/-! ### Concrete tables used by the claim theorems and witnesses -/

/-- Spec §8 Scenario A: a table with a `Год` column
`[2019, 2020, "n/a", 2021]` and the three required fields present. -/
def scenarioA : DataFrame :=
  ⟨["Год", "real_GVA", "real_support", "real_subsidies"],
   [[.num 2019, .num 10, .num 1, .num 2],
    [.num 2020, .num 11, .num 2, .num 3],
    [.str "n/a", .num 12, .num 3, .num 4],
    [.num 2021, .num 13, .num 4, .num 5]]⟩

example : epochNsToYear 2019 = 1970 := by decide
example : epochNsToYear 2021 = 1970 := by decide
example : lowerStr "Год" = "год" := by decide
example : strContains "report_year" "year" = true := by decide

/-! ### Supporting lemmas about rows, cells and columns -/

/-- Writing a cell and reading it back yields the written value, unless
the position is out of range, in which case the read yields the
missing default. -/
theorem getD_set_self_or (r : List Value) (i : Nat) (w : Value) :
    (r.set i w).getD i .null = w ∨ (r.set i w).getD i .null = .null := by
  induction r generalizing i with
  | nil => right; simp
  | cons a t ih =>
    cases i with
    | zero => left; simp
    | succ j => simpa using ih j

/-- Writing back the value just read is a no-op on a row. -/
theorem set_getD_self (r : List Value) (i : Nat) :
    r.set i (r.getD i .null) = r := by
  induction r generalizing i with
  | nil => simp
  | cons a t ih =>
    cases i with
    | zero => simp
    | succ j => simpa using ih j

/-- Looking a name up in a header that does not contain it, after that
name is appended, finds it at the old length. -/
theorem findIdx_append_singleton (c : String) :
    ∀ l : List String, l.findIdx? (fun x => x == c) = none →
      (l ++ [c]).findIdx? (fun x => x == c) = some l.length := by
  intro l
  induction l with
  | nil => intro _; simp
  | cons a t ih =>
    intro h
    rw [List.findIdx?_cons, List.findIdx?_succ] at h
    cases hac : (a == c) with
    | true => rw [hac] at h; simp at h
    | false =>
      rw [hac] at h
      simp only [if_neg Bool.false_ne_true] at h
      have h2 : t.findIdx? (fun x => x == c) = none := by
        cases hfi : t.findIdx? (fun x => x == c) with
        | none => rfl
        | some v => rw [hfi] at h; simp at h
      rw [List.cons_append, List.findIdx?_cons, List.findIdx?_succ, hac,
        if_neg Bool.false_ne_true, ih h2]
      simp [List.length_cons]

/-- A first-found element splits its list into a failing prefix, the
element, and a remainder. -/
theorem find_eq_some_split {α : Type} (p : α → Bool) :
    ∀ (l : List α) (a : α), l.find? p = some a →
      p a = true ∧ ∃ pre post, l = pre ++ a :: post ∧ ∀ x ∈ pre, p x = false := by
  intro l
  induction l with
  | nil => intro a h; simp at h
  | cons b t ih =>
    intro a h
    cases hb : p b with
    | true =>
      rw [List.find?_cons_of_pos _ hb] at h
      injection h with h2
      subst h2
      exact ⟨hb, [], t, rfl, by simp⟩
    | false =>
      rw [List.find?_cons_of_neg _ (by simp [hb])] at h
      obtain ⟨hpa, pre, post, hl, hpre⟩ := ih a h
      refine ⟨hpa, b :: pre, post, by simp [hl], ?_⟩
      intro x hx
      rcases List.mem_cons.mp hx with h3 | h3
      · subst h3; exact hb
      · exact hpre x h3

namespace DataFrame

/-- The column index only depends on the header. -/
theorem colIdx_congr (d1 d2 : DataFrame) (c : String)
    (h : d1.header = d2.header) : d1.colIdx c = d2.colIdx c := by
  unfold colIdx; rw [h]

/-- Column assignment leaves the header unchanged or appends the new
name on the right. -/
theorem header_setCol (df : DataFrame) (c : String) (vs : List Value) :
    (df.setCol c vs).header = df.header ∨
    (df.setCol c vs).header = df.header ++ [c] := by
  unfold setCol
  cases h : df.colIdx c <;> simp

/-- After assigning a column, its label resolves. -/
theorem colIdx_setCol_self (df : DataFrame) (c : String) (vs : List Value) :
    ∃ i, (df.setCol c vs).colIdx c = some i := by
  unfold setCol
  cases h : df.colIdx c with
  | some i => exact ⟨i, by simpa [colIdx] using (by unfold colIdx at h; exact h)⟩
  | none =>
    refine ⟨df.header.length, ?_⟩
    unfold colIdx at h ⊢
    simpa using findIdx_append_singleton c df.header h

end DataFrame
example : (prepare scenarioA).map (fun d => d.getCol "year")
    = .ok [.num 1970, .num 1970, .num 1970] := by rfl
example : (prepare scenarioA).map (fun d => d.rows.length) = .ok 3 := by rfl
example : prepareWithBounds scenarioA
    = (prepare scenarioA).map (fun d => (d, 1970, 1970)) := by rfl

/-- Everything produced by the datetime-year extraction is either a
number or the missing marker. -/
theorem parseDateYear_num_or_null (v : Value) :
    (∃ n : Int, parseDateYear v = .num n) ∨ parseDateYear v = .null := by
  cases v with
  | num n => exact Or.inl ⟨epochNsToYear n, rfl⟩
  | str s =>
    cases h : isoDateYear s with
    | some y => exact Or.inl ⟨y, by simp [parseDateYear, h]⟩
    | none => exact Or.inr (by simp [parseDateYear, h])
  | null => exact Or.inr rfl

/-- Mapping a cell transformer over a column and assigning the result
back: the assigned label resolves, and every cell of it afterwards is
an output of the transformer or the missing default. -/
theorem setCol_mapped_cells (d : DataFrame) (f : Value → Value)
    (hf : ∀ v, (∃ n : Int, f v = .num n) ∨ f v = .null) :
    ∃ i, (d.setCol "year" ((d.getCol "year").map f)).colIdx "year" = some i ∧
      ∀ r ∈ (d.setCol "year" ((d.getCol "year").map f)).rows,
        (∃ n : Int, r.getD i .null = .num n) ∨ r.getD i .null = .null := by
  cases hci : d.colIdx "year" with
  | some i =>
    refine ⟨i, ?_, ?_⟩
    · simp only [DataFrame.setCol, DataFrame.getCol, hci]
      exact hci
    · simp only [DataFrame.setCol, DataFrame.getCol, hci]
      intro r hr
      obtain ⟨⟨q, w⟩, hp, hqr⟩ := List.mem_map.mp hr
      obtain ⟨hq, hw⟩ := List.of_mem_zip hp
      obtain ⟨u, hu, huw⟩ := List.mem_map.mp hw
      subst hqr
      rcases getD_set_self_or q i w with hc | hc
      · rw [hc, ← huw]
        exact hf u
      · exact Or.inr hc
  | none =>
    refine ⟨d.header.length, ?_, ?_⟩
    · simp only [DataFrame.setCol, DataFrame.getCol, hci]
      unfold DataFrame.colIdx at hci ⊢
      simpa using findIdx_append_singleton "year" d.header hci
    · simp only [DataFrame.setCol, DataFrame.getCol, hci]
      intro r hr
      simp at hr

/-- After the drop of missing-year rows: the year label still resolves
at the same index and every surviving year cell is numeric, given that
before the drop each year cell was numeric or missing. -/
theorem dropnaYear_cells (d : DataFrame) (i : Nat)
    (hci : d.colIdx "year" = some i)
    (hcell : ∀ r ∈ d.rows,
      (∃ n : Int, r.getD i .null = .num n) ∨ r.getD i .null = .null) :
    (dropnaYear d).colIdx "year" = some i ∧
      ∀ r ∈ (dropnaYear d).rows, ∃ n : Int, r.getD i .null = .num n := by
  unfold dropnaYear
  rw [hci]
  refine ⟨hci, ?_⟩
  intro r hr
  obtain ⟨hmem, hne⟩ := List.mem_filter.mp hr
  rcases hcell r hmem with h | h
  · exact h
  · rw [h] at hne; simp at hne

/-- Re-assigning the year column to itself is a no-op (this is the
`astype(int)` step, whose cell action is the identity here). -/
theorem setCol_getCol_self (d : DataFrame) (i : Nat)
    (hci : d.colIdx "year" = some i) :
    d.setCol "year" ((d.getCol "year").map astypeIntVal) = d := by
  have hid : ∀ l : List Value, l.map astypeIntVal = l := by
    intro l
    induction l with
    | nil => rfl
    | cons a t ih => rw [List.map_cons, ih]; rfl
  rw [hid]
  simp only [DataFrame.setCol, DataFrame.getCol, hci]
  have hz : ∀ rows : List (List Value),
      (rows.zip (rows.map (fun r => r.getD i .null))).map
        (fun p => p.1.set i p.2) = rows := by
    intro rows
    induction rows with
    | nil => rfl
    | cons r t ih =>
      simp only [List.map_cons, List.zip_cons_cons]
      show (r.set i (r.getD i .null)) ::
        ((t.zip (t.map fun q => q.getD i .null)).map fun p => p.1.set i p.2)
        = r :: t
      rw [set_getD_self, ih]
  rw [hz]

/-- Invariant established by `prepare`: the result has a resolvable
`year` column with every cell a (strict) integer — the drop step has
removed all rows with a missing year. -/
theorem prepare_year_invariant (df0 df : DataFrame)
    (h : prepare df0 = .ok df) :
    ∃ i, df.colIdx "year" = some i ∧
      ∀ r ∈ df.rows, ∃ n : Int, r.getD i .null = .num n := by
  unfold prepare at h
  cases h1 : ensureYearColumn df0 with
  | error e => simp only [h1] at h; exact absurd h (by simp)
  | ok df1 =>
    simp only [h1] at h
    cases h2 : ensureRequiredColumns df1 with
    | error e => simp only [h2] at h; exact absurd h (by simp)
    | ok u =>
      simp only [h2, Except.ok.injEq] at h
      obtain ⟨i, hci3, hcell3⟩ :=
        setCol_mapped_cells (coerceNumeric df1 (REQUIRED_COLS ++ ["year"]))
          parseDateYear parseDateYear_num_or_null
      obtain ⟨hci4, hcell4⟩ := dropnaYear_cells _ i hci3 hcell3
      rw [setCol_getCol_self _ i hci4] at h
      subst h
      exact ⟨i, hci4, hcell4⟩

/-- The in-range test holds exactly of integer cells within bounds. -/
theorem cellInRange_iff (v : Value) (lo hi : Int) :
    cellInRange v lo hi = true ↔
      ∃ n : Int, v = .num n ∧ lo ≤ n ∧ n ≤ hi := by
  cases v <;> simp [cellInRange]

/-- The range filter does not touch the header. -/
theorem rangeFilter_header (df : DataFrame) (lo hi : Int) :
    (rangeFilter df lo hi).header = df.header := by
  cases h : df.colIdx "year" <;> simp [rangeFilter, h]

/-- Rows of the range-filtered view, in order, are a sublist of the
source rows. -/
theorem rangeFilter_sublist (df : DataFrame) (lo hi : Int) :
    List.Sublist (rangeFilter df lo hi).rows df.rows := by
  cases h : df.colIdx "year" with
  | none => simp [rangeFilter, h]
  | some i =>
    simp only [rangeFilter, h]
    exact List.filter_sublist _

/-- Membership in the range-filtered view, for a table whose year label
resolves: exactly the source rows whose year cell lies in the bounds. -/
theorem rangeFilter_mem (df : DataFrame) (i : Nat)
    (hci : df.colIdx "year" = some i) (lo hi : Int) (r : List Value) :
    r ∈ (rangeFilter df lo hi).rows ↔
      r ∈ df.rows ∧ cellInRange (r.getD i .null) lo hi = true := by
  simp [rangeFilter, hci, List.mem_filter]

/-- Unfolding of the range filter when the year label resolves. -/
theorem rangeFilter_eq_of_some (d : DataFrame) (i : Nat) (lo hi : Int)
    (h : d.colIdx "year" = some i) :
    rangeFilter d lo hi
      = ⟨d.header,
         d.rows.filter (fun r => cellInRange (r.getD i .null) lo hi)⟩ := by
  simp [rangeFilter, h]

/-- The range filter is the identity when no year label resolves. -/
theorem rangeFilter_eq_of_none (d : DataFrame) (lo hi : Int)
    (h : d.colIdx "year" = none) : rangeFilter d lo hi = d := by
  simp [rangeFilter, h]

/-- Unfolding of the categorical filter when the label resolves. -/
theorem categoricalFilter_eq_of_some (d : DataFrame) (c : String)
    (allowed : List Value) (j : Nat) (h : d.colIdx c = some j) :
    categoricalFilter d (some c) (some allowed)
      = ⟨d.header,
         d.rows.filter (fun r => allowed.contains (r.getD j .null))⟩ := by
  simp [categoricalFilter, h]

/-- The categorical filter is the identity when its label is absent. -/
theorem categoricalFilter_eq_of_none (d : DataFrame) (c : String)
    (allowed : List Value) (h : d.colIdx c = none) :
    categoricalFilter d (some c) (some allowed) = d := by
  simp [categoricalFilter, h]

/-- The categorical filter does not touch the header. -/
theorem categoricalFilter_header (df : DataFrame) (catCol : Option String)
    (sel : Option (List Value)) :
    (categoricalFilter df catCol sel).header = df.header := by
  cases catCol with
  | none => rfl
  | some c =>
    cases sel with
    | none => rfl
    | some allowed => cases h : df.colIdx c <;> simp [categoricalFilter, h]

/-- Rows of the categorical-filtered view are a sublist of the source. -/
theorem categoricalFilter_sublist (df : DataFrame) (catCol : Option String)
    (sel : Option (List Value)) :
    List.Sublist (categoricalFilter df catCol sel).rows df.rows := by
  cases catCol with
  | none => exact List.Sublist.refl _
  | some c =>
    cases sel with
    | none => exact List.Sublist.refl _
    | some allowed =>
      cases h : df.colIdx c with
      | none => simp [categoricalFilter, h]
      | some i =>
        simp only [categoricalFilter, h]
        exact List.filter_sublist _

/-- The player-year view does not touch the header. -/
theorem playerFilter_header (df : DataFrame) (py : Option Int) :
    (playerFilter df py).header = df.header := by
  cases py with
  | none => rfl
  | some y => cases h : df.colIdx "year" <;> simp [playerFilter, h]

/-- Rows of the player-year view are a sublist of the source. -/
theorem playerFilter_sublist (df : DataFrame) (py : Option Int) :
    List.Sublist (playerFilter df py).rows df.rows := by
  cases py with
  | none => exact List.Sublist.refl _
  | some y =>
    cases h : df.colIdx "year" with
    | none => simp [playerFilter, h]
    | some i =>
      simp only [playerFilter, h]
      exact List.filter_sublist _

/-- A numeric year cell of a row contributes its integer to the year
column's integer list. -/
theorem mem_yearInts (df : DataFrame) (i : Nat)
    (hci : df.colIdx "year" = some i) (r : List Value) (hr : r ∈ df.rows)
    (n : Int) (hn : r.getD i .null = .num n) : n ∈ yearInts df := by
  unfold yearInts DataFrame.getCol
  rw [hci]
  refine List.mem_filterMap.mpr ⟨.num n, ?_, rfl⟩
  exact List.mem_map.mpr ⟨r, hr, hn⟩

/-- The observed minimum of an integer list bounds its members below. -/
theorem int_min_le {l : List Int} {a : Int} (h : l.min? = some a) :
    ∀ n ∈ l, a ≤ n :=
  fun n hn =>
    (List.le_min?_iff (fun _ _ _ => le_min_iff) h).mp (le_refl a) n hn

/-- The observed maximum of an integer list bounds its members above. -/
theorem int_le_max {l : List Int} {b : Int} (h : l.max? = some b) :
    ∀ n ∈ l, n ≤ b :=
  fun n hn =>
    (List.max?_le_iff (fun _ _ _ => max_le_iff) h).mp (le_refl b) n hn

/-- Inversion of `prepareWithBounds`: a successful run is a successful
`prepare` whose year column is non-empty, with the observed min and max
as bounds. -/
theorem prepareWithBounds_inv (df0 df : DataFrame) (a b : Int)
    (h : prepareWithBounds df0 = .ok (df, a, b)) :
    prepare df0 = .ok df ∧
      (yearInts df).min? = some a ∧ (yearInts df).max? = some b := by
  unfold prepareWithBounds at h
  cases hp : prepare df0 with
  | error e => simp only [hp] at h; exact absurd h (by simp)
  | ok d =>
    simp only [hp] at h
    cases hmn : (yearInts d).min? with
    | none => simp only [hmn] at h; exact absurd h (by simp)
    | some a2 =>
      cases hmx : (yearInts d).max? with
      | none => simp only [hmn, hmx] at h; exact absurd h (by simp)
      | some b2 =>
        simp only [hmn, hmx, Except.ok.injEq, Prod.mk.injEq] at h
        obtain ⟨hdf, ha, hb⟩ := h
        subst hdf; subst ha; subst hb
        exact ⟨rfl, hmn, hmx⟩

/-! ### Claim theorems -/

/-- The value of `prepare` on Scenario A, spelled out: the unparseable
row is dropped, the required fields are untouched, and every retained
year cell holds 1970 (the `pd.to_datetime` re-coercion of app.py line
113 reads the integer years as nanoseconds since the epoch). -/
def scenarioAPrepared : DataFrame :=
  ⟨["Год", "real_GVA", "real_support", "real_subsidies", "year"],
   [[.num 2019, .num 10, .num 1, .num 2, .num 1970],
    [.num 2020, .num 11, .num 2, .num 3, .num 1970],
    [.num 2021, .num 13, .num 4, .num 5, .num 1970]]⟩

example : prepare scenarioA = .ok scenarioAPrepared := by rfl

/-- C1: the claim requires the retained year values to equal the
numeric parse of the source column (Scenario A: `[2019, 2020, 2021]`);
the code instead re-coerces the already-numeric year column through
`pd.to_datetime` (app.py line 113), which reads integers as nanoseconds
since the Unix epoch, so every retained year collapses to 1970.  The
row whose year fails to parse is indeed dropped (3 rows remain) and the
final column is all-integer, but the values contradict the claim. -/
theorem c1_scenarioA_year_collapses_to_1970 :
    (prepare scenarioA).map (fun d => d.getCol "year")
      = .ok [.num 1970, .num 1970, .num 1970] ∧
    (prepare scenarioA).map (fun d => d.rows.length) = .ok 3 ∧
    ([Value.num 1970, Value.num 1970, Value.num 1970] : List Value)
      ≠ [Value.num 2019, Value.num 2020, Value.num 2021] :=
  ⟨by rfl, by rfl, by decide⟩

/-- C2: for every prepared table and every pair of bounds, the
range-filtered view holds exactly the rows whose year lies in the
inclusive range (in source order, a sublist), and the observed bounds
handed to the slider are the min/max of the post-coercion, post-drop
table produced by `prepare`. -/
theorem c2_range_filter_exact_and_bounds_post_drop
    (df0 df : DataFrame) (a b : Int)
    (h : prepareWithBounds df0 = .ok (df, a, b)) (lo hi : Int) :
    (∃ i, df.colIdx "year" = some i ∧
      ∀ r : List Value,
        r ∈ (rangeFilter df lo hi).rows ↔
          r ∈ df.rows ∧ ∃ n : Int, r.getD i .null = .num n ∧ lo ≤ n ∧ n ≤ hi) ∧
    List.Sublist (rangeFilter df lo hi).rows df.rows ∧
    prepare df0 = .ok df ∧
    (yearInts df).min? = some a ∧ (yearInts df).max? = some b := by
  obtain ⟨hp, hmn, hmx⟩ := prepareWithBounds_inv df0 df a b h
  obtain ⟨i, hci, hcell⟩ := prepare_year_invariant df0 df hp
  refine ⟨⟨i, hci, ?_⟩, rangeFilter_sublist df lo hi, hp, hmn, hmx⟩
  intro r
  rw [rangeFilter_mem df i hci lo hi r, cellInRange_iff]

/-- C2 witness: Scenario A instantiates the hypothesis; bounds come
from the prepared (post-drop) table. -/
theorem c2_range_filter_witness :
    prepareWithBounds scenarioA = .ok (scenarioAPrepared, 1970, 1970) ∧
    List.Sublist (rangeFilter scenarioAPrepared 1969 1970).rows
      scenarioAPrepared.rows ∧
    (yearInts scenarioAPrepared).min? = some 1970 :=
  ⟨by rfl,
   (c2_range_filter_exact_and_bounds_post_drop scenarioA scenarioAPrepared
      1970 1970 (by rfl) 1969 1970).2.1,
   (c2_range_filter_exact_and_bounds_post_drop scenarioA scenarioAPrepared
      1970 1970 (by rfl) 1969 1970).2.2.2.1⟩

/-- C9: when the coerced, year-dropped table has no rows left, the run
fails with the empty-range error instead of going on to bounds and
charts with an empty view. -/
theorem c9_empty_after_drop_halts (df0 df : DataFrame)
    (hp : prepare df0 = .ok df) (hrows : df.rows = []) :
    prepareWithBounds df0 = .error .emptyYears := by
  have hy : yearInts df = [] := by
    unfold yearInts DataFrame.getCol
    cases h : df.colIdx "year" <;> simp [h, hrows]
  unfold prepareWithBounds
  simp only [hp, hy, List.min?_nil, List.max?_nil]

/-- A table whose only year value is unparseable: after coercion and
the drop step nothing remains. -/
def allBadYears : DataFrame :=
  ⟨["year", "real_GVA", "real_support", "real_subsidies"],
   [[.str "soon", .num 1, .num 2, .num 3]]⟩

/-- C9 witness: the all-unparseable-years table runs into the
empty-range error. -/
theorem c9_empty_after_drop_witness :
    prepare allBadYears
      = .ok ⟨["year", "real_GVA", "real_support", "real_subsidies"], []⟩ ∧
    prepareWithBounds allBadYears = .error .emptyYears :=
  ⟨by rfl,
   c9_empty_after_drop_halts allBadYears
     ⟨["year", "real_GVA", "real_support", "real_subsidies"], []⟩
     (by rfl) rfl⟩

/-- C10: filtering the prepared table with its own observed min and max
year (the slider's default value) keeps every row — the filter is the
identity on the prepared table. -/
theorem c10_default_bounds_filter_identity (df0 df : DataFrame) (a b : Int)
    (h : prepareWithBounds df0 = .ok (df, a, b)) :
    rangeFilter df a b = df := by
  obtain ⟨hp, hmn, hmx⟩ := prepareWithBounds_inv df0 df a b h
  obtain ⟨i, hci, hcell⟩ := prepare_year_invariant df0 df hp
  simp only [rangeFilter, hci]
  have hall : ∀ r ∈ df.rows, cellInRange (r.getD i .null) a b = true := by
    intro r hr
    obtain ⟨n, hn⟩ := hcell r hr
    have hmem := mem_yearInts df i hci r hr n hn
    rw [cellInRange_iff]
    exact ⟨n, hn, int_min_le hmn n hmem, int_le_max hmx n hmem⟩
  rw [List.filter_eq_self.mpr hall]

/-- C10 witness: on Scenario A the default-bounds filter returns the
prepared table unchanged. -/
theorem c10_default_bounds_witness :
    rangeFilter scenarioAPrepared 1970 1970 = scenarioAPrepared :=
  c10_default_bounds_filter_identity scenarioA scenarioAPrepared 1970 1970
    (by rfl)

/-- `key in cols_lower` holds exactly when some column lowercases to
`key` (the dict lookup then returning the last such column). -/
theorem lastKeyMatch_isSome (df : DataFrame) (k : String) :
    (lastKeyMatch df k).isSome
      = df.header.any (fun c => lowerStr c == k) := by
  unfold lastKeyMatch
  rw [Bool.eq_iff_iff, List.getLast?_isSome, Ne, List.filter_eq_nil_iff,
    List.any_eq_true]
  push_neg
  simp

/-- C3: the Column Resolver tries, in order and case-insensitively, an
exact `year` column (numeric parse), an exact `год` column (numeric
parse), an exact `date` column (date parse, year extracted), and then
any column whose lowered name contains `year`/`год` (numeric parse);
the first matching rule wins and the result is the input table
augmented with a `year` column. -/
theorem c3_resolution_order (df : DataFrame) :
    ((lastKeyMatch df "year").isSome
        = df.header.any (fun c => lowerStr c == "year") ∧
     (lastKeyMatch df "год").isSome
        = df.header.any (fun c => lowerStr c == "год") ∧
     (lastKeyMatch df "date").isSome
        = df.header.any (fun c => lowerStr c == "date")) ∧
    (∀ c, lastKeyMatch df "year" = some c →
      ensureYearColumn df
        = .ok (df.setCol "year" ((df.getCol c).map parseNum))) ∧
    (lastKeyMatch df "year" = none →
      ∀ c, lastKeyMatch df "год" = some c →
        ensureYearColumn df
          = .ok (df.setCol "year" ((df.getCol c).map parseNum))) ∧
    (lastKeyMatch df "year" = none → lastKeyMatch df "год" = none →
      ∀ c, lastKeyMatch df "date" = some c →
        ensureYearColumn df
          = .ok (df.setCol "year" ((df.getCol c).map parseDateYear))) ∧
    (lastKeyMatch df "year" = none → lastKeyMatch df "год" = none →
      lastKeyMatch df "date" = none →
      ∀ c, firstSubstrMatch df = some c →
        ensureYearColumn df
          = .ok (df.setCol "year" ((df.getCol c).map parseNum))) ∧
    (∀ d, ensureYearColumn df = .ok d →
      d.header = df.header ∨ d.header = df.header ++ ["year"]) := by
  refine ⟨⟨lastKeyMatch_isSome df "year", lastKeyMatch_isSome df "год",
    lastKeyMatch_isSome df "date"⟩, ?_, ?_, ?_, ?_, ?_⟩
  · intro c h1
    simp only [ensureYearColumn, h1]
  · intro h1 c h2
    simp only [ensureYearColumn, h1, h2]
  · intro h1 h2 c h3
    simp only [ensureYearColumn, h1, h2, h3]
  · intro h1 h2 h3 c h4
    simp only [ensureYearColumn, h1, h2, h3, h4]
  · intro d hd
    unfold ensureYearColumn at hd
    cases h1 : lastKeyMatch df "year" with
    | some c =>
      simp only [h1, Except.ok.injEq] at hd
      subst hd
      exact DataFrame.header_setCol df "year" _
    | none =>
      simp only [h1] at hd
      cases h2 : lastKeyMatch df "год" with
      | some c =>
        simp only [h2, Except.ok.injEq] at hd
        subst hd
        exact DataFrame.header_setCol df "year" _
      | none =>
        simp only [h2] at hd
        cases h3 : lastKeyMatch df "date" with
        | some c =>
          simp only [h3, Except.ok.injEq] at hd
          subst hd
          exact DataFrame.header_setCol df "year" _
        | none =>
          simp only [h3] at hd
          cases h4 : firstSubstrMatch df with
          | some c =>
            simp only [h4, Except.ok.injEq] at hd
            subst hd
            exact DataFrame.header_setCol df "year" _
          | none => simp only [h4] at hd; exact absurd hd (by simp)

/-- A table whose only year-candidate is an exact (case-insensitive)
`date` column. -/
def dateTable : DataFrame :=
  ⟨["Date", "real_GVA", "real_support", "real_subsidies"],
   [[.str "2019-05-01", .num 1, .num 2, .num 3]]⟩

/-- C3 witness: on a table with only a `Date` column the third rule
fires, and the extracted calendar year is 2019. -/
theorem c3_resolution_order_witness :
    ensureYearColumn dateTable
      = .ok (dateTable.setCol "year"
          ((dateTable.getCol "Date").map parseDateYear)) ∧
    (dateTable.getCol "Date").map parseDateYear = [.num 2019] :=
  ⟨(c3_resolution_order dateTable).2.2.2.1 (by rfl) (by rfl) "Date" (by rfl),
   by rfl⟩

/-- C4: the Schema Validator passes silently iff all three required
fields are present (exact, case-sensitive names); otherwise it fails
with exactly the missing names in declared order, and an error of the
validator is always of that kind and halts `prepare` before any further
shaping (no columns are created — the validator does not modify the
table). -/
theorem c4_required_columns_validator (df : DataFrame) :
    (ensureRequiredColumns df = .ok () ↔
      ∀ c ∈ REQUIRED_COLS, df.hasCol c = true) ∧
    (∀ m, ensureRequiredColumns df = .error (.missingRequired m) →
      m = REQUIRED_COLS.filter (fun c => !(df.hasCol c)) ∧ m ≠ [] ∧
      ∀ c, c ∈ m ↔ c ∈ REQUIRED_COLS ∧ df.hasCol c = false) ∧
    (∀ e, ensureRequiredColumns df = .error e →
      ∃ m, e = .missingRequired m) ∧
    (∀ df0, ensureYearColumn df0 = .ok df →
      ∀ e, ensureRequiredColumns df = .error e →
        prepare df0 = .error e) := by
  cases hE : (REQUIRED_COLS.filter (fun c => !(df.hasCol c))).isEmpty with
  | true =>
    have hok : ensureRequiredColumns df = .ok () := by
      simp [ensureRequiredColumns, hE]
    have hall : ∀ c ∈ REQUIRED_COLS, df.hasCol c = true := by
      have hnil := List.isEmpty_iff.mp hE
      intro c hc
      have hcc := List.filter_eq_nil_iff.mp hnil c hc
      cases hb : df.hasCol c
      · rw [hb] at hcc; simp at hcc
      · rfl
    refine ⟨⟨fun _ => hall, fun _ => hok⟩, ?_, ?_, ?_⟩
    · intro m hm; rw [hok] at hm; exact absurd hm (by simp)
    · intro e he; rw [hok] at he; exact absurd he (by simp)
    · intro df0 h0 e he; rw [hok] at he; exact absurd he (by simp)
  | false =>
    have herr : ensureRequiredColumns df
        = .error (.missingRequired
            (REQUIRED_COLS.filter (fun c => !(df.hasCol c)))) := by
      simp [ensureRequiredColumns, hE]
    have hne : REQUIRED_COLS.filter (fun c => !(df.hasCol c)) ≠ [] := by
      intro hnil; rw [hnil] at hE; simp at hE
    refine ⟨?_, ?_, ?_, ?_⟩
    · constructor
      · intro hcontra; rw [herr] at hcontra; exact absurd hcontra (by simp)
      · intro hall
        exfalso
        apply hne
        refine List.filter_eq_nil_iff.mpr ?_
        intro c hc
        simp [hall c hc]
    · intro m hm
      rw [herr] at hm
      simp only [Except.error.injEq, AppError.missingRequired.injEq] at hm
      subst hm
      refine ⟨rfl, hne, ?_⟩
      intro c
      rw [List.mem_filter]
      constructor
      · rintro ⟨hc, hb⟩
        refine ⟨hc, ?_⟩
        cases hcc : df.hasCol c
        · rfl
        · rw [hcc] at hb; simp at hb
      · rintro ⟨hc, hb⟩
        exact ⟨hc, by simp [hb]⟩
    · intro e he
      rw [herr] at he
      simp only [Except.error.injEq] at he
      exact ⟨_, he.symm⟩
    · intro df0 h0 e he
      unfold prepare
      simp only [h0, he]

/-- Spec §8 Scenario B: a table missing `real_subsidies`. -/
def scenarioB : DataFrame :=
  ⟨["year", "real_GVA", "real_support"], [[.num 2019, .num 1, .num 2]]⟩

/-- C4 witness: the Scenario-B table fails the validator with exactly
`["real_subsidies"]`. -/
theorem c4_required_columns_witness :
    ensureRequiredColumns scenarioB
      = .error (.missingRequired ["real_subsidies"]) ∧
    (["real_subsidies"]
        = REQUIRED_COLS.filter (fun c => !(scenarioB.hasCol c)) ∧
      ["real_subsidies"] ≠ ([] : List String) ∧
      ∀ c, c ∈ ["real_subsidies"] ↔
        c ∈ REQUIRED_COLS ∧ scenarioB.hasCol c = false) :=
  ⟨by rfl,
   (c4_required_columns_validator scenarioB).2.1 ["real_subsidies"] (by rfl)⟩

/-- C5: when no column matches any year-resolution candidate — no name
lowercases to `year`, `год` or `date` and none contains `year`/`год` —
the resolver fails with the missing-year error, and both the shaping
stage and the whole bounded pipeline halt with that same error. -/
theorem c5_missing_year_halts (df : DataFrame)
    (h : ∀ c ∈ df.header,
      lowerStr c ≠ "year" ∧ lowerStr c ≠ "год" ∧ lowerStr c ≠ "date" ∧
      strContains (lowerStr c) "year" = false ∧
      strContains (lowerStr c) "год" = false) :
    ensureYearColumn df = .error .missingYear ∧
    prepare df = .error .missingYear ∧
    prepareWithBounds df = .error .missingYear := by
  have hy : lastKeyMatch df "year" = none := by
    unfold lastKeyMatch
    rw [List.filter_eq_nil_iff.mpr
      (by intro c hc; simp only [beq_iff_eq]; exact (h c hc).1)]
    rfl
  have hg : lastKeyMatch df "год" = none := by
    unfold lastKeyMatch
    rw [List.filter_eq_nil_iff.mpr
      (by intro c hc; simp only [beq_iff_eq]; exact (h c hc).2.1)]
    rfl
  have hd : lastKeyMatch df "date" = none := by
    unfold lastKeyMatch
    rw [List.filter_eq_nil_iff.mpr
      (by intro c hc; simp only [beq_iff_eq]; exact (h c hc).2.2.1)]
    rfl
  have hs : firstSubstrMatch df = none := by
    refine List.find?_eq_none.mpr ?_
    intro c hc
    simp [(h c hc).2.2.2.1, (h c hc).2.2.2.2]
  have e1 : ensureYearColumn df = .error .missingYear := by
    simp only [ensureYearColumn, hy, hg, hd, hs]
  have e2 : prepare df = .error .missingYear := by
    simp only [prepare, e1]
  have e3 : prepareWithBounds df = .error .missingYear := by
    simp only [prepareWithBounds, e2]
  exact ⟨e1, e2, e3⟩

/-- A table with the required numeric fields but nothing resembling a
year column. -/
def noYearTable : DataFrame :=
  ⟨["real_GVA", "real_support", "real_subsidies"],
   [[.num 1, .num 2, .num 3]]⟩

/-- C5 witness: the year-less table halts everywhere with the
missing-year error. -/
theorem c5_missing_year_witness :
    ensureYearColumn noYearTable = .error .missingYear ∧
    prepare noYearTable = .error .missingYear ∧
    prepareWithBounds noYearTable = .error .missingYear :=
  c5_missing_year_halts noYearTable (by decide)

/-- C6: with a detected categorical column and a provided selection
set, the filtered view holds exactly the source rows whose categorical
cell is a member of the selection; the empty selection yields the empty
view (a valid state, not an error). -/
theorem c6_categorical_filter_membership (df : DataFrame) (c : String)
    (i : Nat) (hci : df.colIdx c = some i) (sel : List Value) :
    (∀ r : List Value,
      r ∈ (categoricalFilter df (some c) (some sel)).rows ↔
        r ∈ df.rows ∧ sel.contains (r.getD i .null) = true) ∧
    (categoricalFilter df (some c) (some [])).rows = [] := by
  constructor
  · intro r
    simp [categoricalFilter, hci, List.mem_filter]
  · have hfalse : ∀ r : List Value,
        (([] : List Value).contains (r.getD i .null)) = false :=
      fun _ => rfl
    simp [categoricalFilter, hci, hfalse]

/-- Spec §8 Scenario D: a table with a `sector` column over
`{"A", "B", "C"}`. -/
def sectorTable : DataFrame :=
  ⟨["sector", "year", "real_GVA", "real_support", "real_subsidies"],
   [[.str "A", .num 2019, .num 1, .num 1, .num 1],
    [.str "B", .num 2020, .num 2, .num 2, .num 2],
    [.str "C", .num 2021, .num 3, .num 3, .num 3],
    [.str "B", .num 2022, .num 4, .num 4, .num 4]]⟩

/-- C6 witness: Scenario D, selection `{"B"}`, instantiated at a
concrete row, plus the empty-selection case. -/
theorem c6_categorical_filter_witness :
    sectorTable.colIdx "sector" = some 0 ∧
    ([Value.str "B", Value.num 2020, Value.num 2, Value.num 2, Value.num 2]
        ∈ (categoricalFilter sectorTable (some "sector")
            (some [Value.str "B"])).rows ↔
      [Value.str "B", Value.num 2020, Value.num 2, Value.num 2, Value.num 2]
        ∈ sectorTable.rows ∧
      ([Value.str "B"] : List Value).contains
        ([Value.str "B", Value.num 2020, Value.num 2, Value.num 2,
          Value.num 2].getD 0 .null) = true) ∧
    (categoricalFilter sectorTable (some "sector") (some [])).rows = [] :=
  ⟨by rfl,
   (c6_categorical_filter_membership sectorTable "sector" 0 (by rfl)
      [Value.str "B"]).1 _,
   (c6_categorical_filter_membership sectorTable "sector" 0 (by rfl)
      [Value.str "B"]).2⟩

/-- Any row of the categorically filtered view is a source row. -/
theorem mem_of_mem_categoricalFilter (df : DataFrame)
    (catCol : Option String) (sel : Option (List Value)) (r : List Value)
    (h : r ∈ (categoricalFilter df catCol sel).rows) : r ∈ df.rows :=
  (categoricalFilter_sublist df catCol sel).subset h

/-- The range filter is a fixed point on its own output inside the
pipeline: the categorically filtered range view passes the same range
filter unchanged. -/
theorem rangeFilter_fixed_on_main (df : DataFrame) (catCol : Option String)
    (sel : Option (List Value)) (lo hi : Int) :
    rangeFilter (categoricalFilter (rangeFilter df lo hi) catCol sel) lo hi
      = categoricalFilter (rangeFilter df lo hi) catCol sel := by
  have hm_header :
      (categoricalFilter (rangeFilter df lo hi) catCol sel).header
        = df.header := by
    rw [categoricalFilter_header, rangeFilter_header]
  cases hci : df.colIdx "year" with
  | none =>
    have hci_m :
        (categoricalFilter (rangeFilter df lo hi) catCol sel).colIdx "year"
          = none := by
      rw [DataFrame.colIdx_congr _ df "year" hm_header]; exact hci
    exact rangeFilter_eq_of_none _ lo hi hci_m
  | some i =>
    have hci_m :
        (categoricalFilter (rangeFilter df lo hi) catCol sel).colIdx "year"
          = some i := by
      rw [DataFrame.colIdx_congr _ df "year" hm_header]; exact hci
    have hall : ∀ r ∈ (categoricalFilter (rangeFilter df lo hi) catCol sel).rows,
        cellInRange (r.getD i .null) lo hi = true := by
      intro r hr
      have hr_rf : r ∈ (rangeFilter df lo hi).rows :=
        mem_of_mem_categoricalFilter (rangeFilter df lo hi) catCol sel r hr
      exact ((rangeFilter_mem df i hci lo hi r).mp hr_rf).2
    rw [rangeFilter_eq_of_some _ i lo hi hci_m,
      List.filter_eq_self.mpr hall]

/-- The categorical filter is a fixed point on its own output. -/
theorem categoricalFilter_fixed (d : DataFrame) (catCol : Option String)
    (sel : Option (List Value)) :
    categoricalFilter (categoricalFilter d catCol sel) catCol sel
      = categoricalFilter d catCol sel := by
  cases catCol with
  | none => rfl
  | some c =>
    cases sel with
    | none => rfl
    | some allowed =>
      cases hcj : (categoricalFilter d (some c) (some allowed)).colIdx c with
      | none => exact categoricalFilter_eq_of_none _ c allowed hcj
      | some j =>
        have hcj_d : d.colIdx c = some j := by
          rw [← DataFrame.colIdx_congr _ d c
            (categoricalFilter_header d (some c) (some allowed))]
          exact hcj
        have hm_eq : categoricalFilter d (some c) (some allowed)
            = ⟨d.header, d.rows.filter
                (fun r => allowed.contains (r.getD j .null))⟩ :=
          categoricalFilter_eq_of_some d c allowed j hcj_d
        have hall : ∀ r ∈ (categoricalFilter d (some c) (some allowed)).rows,
            allowed.contains (r.getD j .null) = true := by
          intro r hr
          rw [hm_eq] at hr
          exact (List.mem_filter.mp hr).2
        rw [categoricalFilter_eq_of_some _ c allowed j hcj,
          List.filter_eq_self.mpr hall]

/-- C7: the Filter Pipeline is a pure function of the table and the
filter parameters (equal inputs give equal views), it is idempotent
(re-filtering the main view with the same parameters reproduces both
views bit-identically), and each view's rows are a sublist of the
source rows — the original row order is preserved. -/
theorem c7_filter_pipeline_pure_idempotent_stable (df : DataFrame)
    (catCol : Option String) (p : FilterParams) :
    (∀ (df2 : DataFrame) (p2 : FilterParams), df2 = df → p2 = p →
      filterViews df2 catCol p2 = filterViews df catCol p) ∧
    filterViews (filterViews df catCol p).1 catCol p
      = filterViews df catCol p ∧
    List.Sublist (filterViews df catCol p).1.rows df.rows ∧
    List.Sublist (filterViews df catCol p).2.rows df.rows := by
  refine ⟨fun df2 p2 h1 h2 => by rw [h1, h2], ?_, ?_, ?_⟩
  · show filterViews
        (categoricalFilter (rangeFilter df p.yearMin p.yearMax) catCol
          p.selected) catCol p
      = filterViews df catCol p
    unfold filterViews
    rw [rangeFilter_fixed_on_main df catCol p.selected p.yearMin p.yearMax,
      categoricalFilter_fixed (rangeFilter df p.yearMin p.yearMax) catCol
        p.selected]
  · exact List.Sublist.trans
      (categoricalFilter_sublist (rangeFilter df p.yearMin p.yearMax) catCol
        p.selected)
      (rangeFilter_sublist df p.yearMin p.yearMax)
  · exact List.Sublist.trans
      (playerFilter_sublist _ p.playerYear)
      (List.Sublist.trans
        (categoricalFilter_sublist (rangeFilter df p.yearMin p.yearMax)
          catCol p.selected)
        (rangeFilter_sublist df p.yearMin p.yearMax))

/-- A concrete parameter set: range 2019-2021, selection `{"B"}`,
player year 2020. -/
def paramsB : FilterParams :=
  ⟨2019, 2021, some [Value.str "B"], some 2020⟩

/-- C7 witness: idempotence and determinism instantiated on the
Scenario-D table. -/
theorem c7_filter_pipeline_witness :
    filterViews (filterViews sectorTable (some "sector") paramsB).1
        (some "sector") paramsB
      = filterViews sectorTable (some "sector") paramsB ∧
    filterViews sectorTable (some "sector") paramsB
      = filterViews sectorTable (some "sector") paramsB :=
  ⟨(c7_filter_pipeline_pure_idempotent_stable sectorTable (some "sector")
      paramsB).2.1,
   (c7_filter_pipeline_pure_idempotent_stable sectorTable (some "sector")
      paramsB).1 sectorTable paramsB rfl rfl⟩

/-- A table that has both a `sector` and a `region` column (plus the
required fields). -/
def sectorRegionTable : DataFrame :=
  ⟨["sector", "region", "real_GVA", "real_support", "real_subsidies",
    "year"], []⟩

/-- C8 counterexample: the claim asserts the candidate order
`industry, sector, region`, so that a table holding both `sector` and
`region` selects `sector`; the code scans
`["industry", "region", "sector", "отрасль", "регион"]` (app.py line
107), so `region` wins on such a table. -/
theorem c8_counterexample_region_beats_sector :
    extraGroupCol sectorRegionTable = some "region" ∧
    ¬ (extraGroupCol sectorRegionTable = some "sector") :=
  ⟨by rfl, by decide⟩

/-- C8 amended: the optional categorical column is the first present
candidate in the code's scan order
`industry, region, sector, отрасль, регион` (exact, case-sensitive
membership): no candidate present means no categorical column (not an
error), a selected column is a present candidate all of whose scan
predecessors are absent, and in a table with both `sector` and `region`
(and no `industry`) the column `region` is selected. -/
theorem c8_first_candidate_in_code_order (df : DataFrame) :
    (extraGroupCol df = none ↔
      ∀ c ∈ extraGroupCandidates, df.hasCol c = false) ∧
    (∀ c, extraGroupCol df = some c →
      df.hasCol c = true ∧
      ∃ pre post, extraGroupCandidates = pre ++ c :: post ∧
        ∀ x ∈ pre, df.hasCol x = false) ∧
    (df.hasCol "industry" = false → df.hasCol "sector" = true →
      df.hasCol "region" = true → extraGroupCol df = some "region") := by
  refine ⟨?_, ?_, ?_⟩
  · unfold extraGroupCol
    rw [List.find?_eq_none]
    constructor
    · intro h c hc
      have := h c hc
      cases hb : df.hasCol c
      · rfl
      · rw [hb] at this; exact absurd rfl this
    · intro h c hc
      rw [h c hc]
      simp
  · intro c hc
    obtain ⟨hp, pre, post, hl, hpre⟩ :=
      find_eq_some_split (fun c => df.hasCol c) extraGroupCandidates c hc
    exact ⟨hp, pre, post, hl, hpre⟩
  · intro hind hsec hreg
    unfold extraGroupCol extraGroupCandidates
    rw [List.find?_cons_of_neg _ (by simp [hind]),
      List.find?_cons_of_pos _ hreg]

/-- C8 amended witness: on the sector-and-region table the scan indeed
returns `region`. -/
theorem c8_first_candidate_witness :
    extraGroupCol sectorRegionTable = some "region" :=
  (c8_first_candidate_in_code_order sectorRegionTable).2.2
    (by rfl) (by rfl) (by rfl)
